import Mathlib

/-!
Verification of the ConsatDemo video-player service (src/demov1.1.py).

The program is a single-process integration: a `VideoPlayer` object owns a
media player and window on the main thread, and a set of HTTP handlers runs
on a server thread; handlers mutate nothing directly and only emit
cross-thread signals.  We embed the player state as a structure, the
filesystem as a boolean predicate on paths, the main-thread slots as pure
state transformers, the any-thread methods as signal emitters, and each HTTP
handler as a function from the global `current_player` (an `Option Player`)
and the parsed request body to a response record carrying the status code,
the JSON payload kind, the post-state of the global, and the list of
signals emitted while handling the request.
-/

namespace ConsatDemo

/-- State of the underlying VLC media player, abstracted to what the code
reads and writes: `is_playing()` is `mstate = .playing`; `pause()` moves
playing to paused; `play()`/`stop()` move to playing/stopped. -/
inductive MState
  | playing
  | paused
  | stopped
deriving DecidableEq, Repr

/-- The fields of `VideoPlayer` that the embedded code reads or writes:
`default_video`, `video_path`, the media-player state, the
`is_default_video` flag, the window (`video_frame`, abstracted to its
presence and its title), the `QApplication` handle and the `is_running`
flag. -/
structure Player where
  default_video : String
  video_path : String
  mstate : MState
  is_default_video : Bool
  has_frame : Bool
  frame_title : String
  has_app : Bool
  is_running : Bool
deriving DecidableEq, Repr

/-- The cross-thread signals of `PlayerSignals`. -/
inductive Sig
  | changeVideoSig (path : String)
  | pauseSig
  | playSig
  | stopSig
  | closeSig
deriving DecidableEq, Repr

/-- `os.path.basename`, for the paths this program builds (separator `/`). -/
def basename (s : String) : String :=
  (s.splitOn "/").getLastD s

/-- `VideoPlayer.__init__(video_path)`: raises `FileNotFoundError` (here:
`none`) when the path does not exist; otherwise stores the path as both
`default_video` and `video_path`, sets `is_default_video := true`, and
creates the (not yet playing) media player with no window and no app. -/
def VideoPlayer.init (fs : String → Bool) (video_path : String) : Option Player :=
  if fs video_path then
    some { default_video := video_path
           video_path := video_path
           mstate := .stopped
           is_default_video := true
           has_frame := false
           frame_title := ""
           has_app := false
           is_running := false }
  else
    none

/-- `VideoPlayer.play_in_main_thread`: sets the current `video_path` as the
media and starts playback, then updates the window title when a window
exists; returns `True`. -/
def play_in_main_thread (p : Player) : Player × Bool :=
  let p1 := { p with mstate := MState.playing }
  let p2 :=
    if p1.has_frame then
      { p1 with frame_title :=
          (if p1.is_default_video then "[DEFAULT] " else "")
            ++ "Video Player - " ++ basename p1.video_path }
    else p1
  (p2, true)

/-- `VideoPlayer.change_video_in_main_thread(new_path)`: when the path
exists, updates `video_path`, recomputes `is_default_video`, stops current
playback if playing, plays the new video and returns `True`; otherwise
returns `False` without touching anything. -/
def change_video_in_main_thread (fs : String → Bool) (p : Player)
    (new_path : String) : Player × Bool :=
  if fs new_path then
    let p1 := { p with video_path := new_path
                       is_default_video := (new_path == p.default_video) }
    let p2 := if p1.mstate = MState.playing
              then { p1 with mstate := MState.stopped } else p1
    ((play_in_main_thread p2).1, true)
  else
    (p, false)

/-- `VideoPlayer.handle_media_end`: if the finished video was not the
default, set the flag and change back to the default video; otherwise
restart (loop) the current video. -/
def handle_media_end (fs : String → Bool) (p : Player) : Player :=
  if !p.is_default_video then
    let p1 := { p with is_default_video := true }
    (change_video_in_main_thread fs p1 p1.default_video).1
  else
    (play_in_main_thread p).1

/-- `VideoPlayer.pause_in_main_thread`: pauses and returns `True` when
playing; otherwise calls `mediaplayer.play()` (resuming the current media)
and returns `False`. -/
def pause_in_main_thread (p : Player) : Player × Bool :=
  if p.mstate = MState.playing then
    ({ p with mstate := MState.paused }, true)
  else
    ({ p with mstate := MState.playing }, false)

/-- `VideoPlayer.stop_in_main_thread`: stops and returns `True` when
playing; otherwise returns `False`. -/
def stop_in_main_thread (p : Player) : Player × Bool :=
  if p.mstate = MState.playing then
    ({ p with mstate := MState.stopped }, true)
  else
    (p, false)

/-- `VideoPlayer.close_in_main_thread`: stops playback when playing, closes
the window when one exists, quits the app when it exists and is running;
returns `True`. -/
def close_in_main_thread (p : Player) : Player × Bool :=
  let p1 := if p.mstate = MState.playing
            then { p with mstate := MState.stopped } else p
  let p2 := if p1.has_frame then { p1 with has_frame := false } else p1
  let p3 := if p2.has_app && p2.is_running
            then { p2 with is_running := false } else p2
  (p3, true)

/-- `VideoPlayer.change_video(new_path)` (callable from any thread): only
emits `change_video_signal` and returns `True`. -/
def Player.change_video (p : Player) (new_path : String) :
    Player × List Sig × Bool :=
  (p, [Sig.changeVideoSig new_path], true)

/-- `VideoPlayer.play` (any thread): only emits `play_signal`, returns `True`. -/
def Player.play (p : Player) : Player × List Sig × Bool :=
  (p, [Sig.playSig], true)

/-- `VideoPlayer.pause` (any thread): only emits `pause_signal`, returns `True`. -/
def Player.pause (p : Player) : Player × List Sig × Bool :=
  (p, [Sig.pauseSig], true)

/-- `VideoPlayer.stop` (any thread): only emits `stop_signal`, returns `True`. -/
def Player.stop (p : Player) : Player × List Sig × Bool :=
  (p, [Sig.stopSig], true)

/-- `VideoPlayer.close` (any thread): only emits `close_signal`, returns `True`. -/
def Player.close (p : Player) : Player × List Sig × Bool :=
  (p, [Sig.closeSig], true)

/-- A JSON response payload: an error object or a success object, carrying
the message string. -/
inductive Resp
  | err (msg : String)
  | ok (msg : String)
deriving DecidableEq, Repr

/-- Whether a payload is an error payload. -/
def Resp.isError : Resp → Bool
  | .err _ => true
  | .ok _ => false

/-- The observable outcome of one HTTP request: status code, payload, the
post-state of the global `current_player`, and the signals emitted. -/
structure HResp where
  status : Nat
  body : Resp
  player : Option Player
  sigs : List Sig
deriving DecidableEq, Repr

/-- `POST /resume`: 500 when uninitialized; otherwise calls `play()` and
reports success (the failure branch has no explicit status, so Flask would
send it with status 200). -/
def resume (cp : Option Player) : HResp :=
  match cp with
  | none => ⟨500, Resp.err "Video player not initialized", none, []⟩
  | some p =>
    let r := p.play
    if r.2.2 then ⟨200, Resp.ok "Resuming", some r.1, r.2.1⟩
    else ⟨200, Resp.err "Failed to start playback", some r.1, r.2.1⟩

/-- The parsed body of a `/changeVideo` request. `malformed` covers every
body on which `request.get_json(force=True)` or the subsequent
`data.get("serial-number")` raises (invalid JSON, or JSON that is not an
object); `valid vid` covers a JSON object, where `vid = some n` means the
`video-id` member is the integer `n` and `vid = none` means it is missing
or not usable as a list index (so `VIDEOS[id]` raises `TypeError`). -/
inductive CVBody
  | malformed
  | valid (videoId : Option Int)
deriving DecidableEq, Repr

/-- Python list indexing `xs[n]`: negative indices count from the end, and
an out-of-range index raises `IndexError` (here: `none`). -/
def pyIndex (xs : List String) (n : Int) : Option String :=
  let i : Int := if n < 0 then n + xs.length else n
  if 0 ≤ i then xs[i.toNat]? else none

/-- `POST /changeVideo`: a body that fails to parse returns 400; then with
no player, 500; with a player, evaluates `VIDEOS[id]` (an unhandled
`TypeError`/`IndexError` becomes Flask's 500 internal-error page) and emits
the change-video signal for `MAIN_PATH/VIDEOS[id]`, answering 200. -/
def changeVideo (videos : List String) (mainPath : String) (body : CVBody)
    (cp : Option Player) : HResp :=
  match body with
  | .malformed => ⟨400, Resp.err "Invalid JSON data", cp, []⟩
  | .valid vid =>
    match cp with
    | none => ⟨500, Resp.err "Video player not initialized", none, []⟩
    | some p =>
      match vid with
      | none => ⟨500, Resp.err "Internal Server Error", some p, []⟩
      | some n =>
        match pyIndex videos n with
        | none => ⟨500, Resp.err "Internal Server Error", some p, []⟩
        | some name =>
          let r := p.change_video (mainPath ++ "/" ++ name)
          if r.2.2 then
            ⟨200, Resp.ok "Change video request sent", some r.1, r.2.1⟩
          else
            ⟨200, Resp.err "Failed to send change video request",
              some r.1, r.2.1⟩

/-- The parsed body of a `/play` request. `malformed` covers bodies on
which `request.get_json(force=True)` raises, which the handler replaces by
`{}` (so no `video_path`); `degenerate` covers valid non-object JSON on
which the later `video_path in data` test or the `data[...]` subscript
raises an unhandled `TypeError` (e.g. `null`, a number, or a list or
string containing the key, such as `["video_path"]`); `parsed vp` covers
the remaining bodies, where `vp = some path` means the `video_path` string
is present and `vp = none` means the membership test is false (a JSON
object without the key, or a list or string not containing it). -/
inductive PlayBody
  | malformed
  | degenerate
  | parsed (videoPath : Option String)
deriving DecidableEq, Repr

/-- `POST /play`: 500 when uninitialized (the player check precedes every
use of `data`); on a degenerate body the unhandled `TypeError` becomes
Flask's 500 internal-error page; with a `video_path` in the body, 404 when
the file does not exist, else emits the change-video signal and answers
200; without one (including a malformed body replaced by `{}`), emits the
play signal and answers 200. -/
def play_video (fs : String → Bool) (body : PlayBody)
    (cp : Option Player) : HResp :=
  match cp with
  | none => ⟨500, Resp.err "Video player not initialized", none, []⟩
  | some p =>
    match body with
    | .degenerate => ⟨500, Resp.err "Internal Server Error", some p, []⟩
    | .malformed =>
      let r := p.play
      if r.2.2 then ⟨200, Resp.ok "Play request sent", some r.1, r.2.1⟩
      else ⟨500, Resp.err "Failed to send play request", some r.1, r.2.1⟩
    | .parsed vp =>
      match vp with
      | some path =>
        if !fs path then
          ⟨404, Resp.err "Video file not found", some p, []⟩
        else
          let r := p.change_video path
          if r.2.2 then
            ⟨200, Resp.ok ("Play request sent for " ++ path), some r.1, r.2.1⟩
          else
            ⟨500, Resp.err "Failed to send play request", some r.1, r.2.1⟩
      | none =>
        let r := p.play
        if r.2.2 then ⟨200, Resp.ok "Play request sent", some r.1, r.2.1⟩
        else ⟨500, Resp.err "Failed to send play request", some r.1, r.2.1⟩

/-- `POST /pause`: 500 when uninitialized; otherwise calls `pause()` and
answers 200 on `True`, 400 on `False`. -/
def pause_video (cp : Option Player) : HResp :=
  match cp with
  | some p =>
    let r := p.pause
    if r.2.2 then ⟨200, Resp.ok "Pause request sent", some r.1, r.2.1⟩
    else ⟨400, Resp.err "Failed to send pause request", some r.1, r.2.1⟩
  | none => ⟨500, Resp.err "Video player not initialized", none, []⟩

/-- `POST /stop`: 500 when uninitialized; otherwise calls `stop()` and
answers 200 on `True`, 400 on `False`. -/
def stop_video (cp : Option Player) : HResp :=
  match cp with
  | some p =>
    let r := p.stop
    if r.2.2 then ⟨200, Resp.ok "Stop request sent", some r.1, r.2.1⟩
    else ⟨400, Resp.err "Failed to send stop request", some r.1, r.2.1⟩
  | none => ⟨500, Resp.err "Video player not initialized", none, []⟩

/-- `POST /close`: 500 when uninitialized; otherwise calls `close()` and
answers 200 on `True`, 500 on `False`. -/
def close_player (cp : Option Player) : HResp :=
  match cp with
  | some p =>
    let r := p.close
    if r.2.2 then ⟨200, Resp.ok "Close request sent", some r.1, r.2.1⟩
    else ⟨500, Resp.err "Failed to send close request", some r.1, r.2.1⟩
  | none => ⟨500, Resp.err "Video player not initialized", none, []⟩

/-- `GET /test`: answers 200 without reading or writing any player state. -/
def test_endpoint (cp : Option Player) : HResp :=
  ⟨200, Resp.ok "API is running", cp, []⟩

/-- The flag invariant: `is_default_video` agrees with whether `video_path`
is the default video. -/
def InvDefault (p : Player) : Prop :=
  p.is_default_video = (p.video_path == p.default_video)

/-- A sample player used to instantiate universally quantified theorems:
it is playing a non-default video `"v"` while its default is `"d"`. -/
def samplePlayer : Player :=
  { default_video := "d"
    video_path := "v"
    mstate := MState.playing
    is_default_video := false
    has_frame := false
    frame_title := ""
    has_app := false
    is_running := false }

/-- A sample filesystem on which exactly the paths `"d"` and `"v"` exist. -/
def sampleFs : String → Bool := fun s => s == "d" || s == "v"

lemma play_imt_video_path (p : Player) :
    (play_in_main_thread p).1.video_path = p.video_path := by
  unfold play_in_main_thread; dsimp only; split <;> rfl

lemma play_imt_mstate (p : Player) :
    (play_in_main_thread p).1.mstate = MState.playing := by
  unfold play_in_main_thread; dsimp only; split <;> rfl

lemma play_imt_is_default (p : Player) :
    (play_in_main_thread p).1.is_default_video = p.is_default_video := by
  unfold play_in_main_thread; dsimp only; split <;> rfl

lemma play_imt_default_video (p : Player) :
    (play_in_main_thread p).1.default_video = p.default_video := by
  unfold play_in_main_thread; dsimp only; split <;> rfl

lemma play_imt_snd (p : Player) : (play_in_main_thread p).2 = true := by
  unfold play_in_main_thread; dsimp only

lemma cvmt_found (fs : String → Bool) (p : Player) (path : String)
    (h : fs path = true) :
    (change_video_in_main_thread fs p path).1.video_path = path ∧
    (change_video_in_main_thread fs p path).1.is_default_video
      = (path == p.default_video) ∧
    (change_video_in_main_thread fs p path).1.mstate = MState.playing ∧
    (change_video_in_main_thread fs p path).1.default_video
      = p.default_video ∧
    (change_video_in_main_thread fs p path).2 = true := by
  unfold change_video_in_main_thread
  rw [if_pos h]
  dsimp only
  refine ⟨?_, ?_, ?_, ?_, rfl⟩
  · rw [play_imt_video_path]; split <;> rfl
  · rw [play_imt_is_default]; split <;> rfl
  · exact play_imt_mstate _
  · rw [play_imt_default_video]; split <;> rfl

/-- C1: `handle_media_end` follows the video-transition rule (given that
the default video file exists, which `change_video_in_main_thread` checks):
after a non-default video it switches to and plays the default video with
`is_default_video` set, and after the default video it restarts the same
video, keeping the flag. -/
theorem handle_media_end_transition (fs : String → Bool) (p : Player)
    (hfs : fs p.default_video = true) :
    (p.is_default_video = false →
      (handle_media_end fs p).video_path = p.default_video ∧
      (handle_media_end fs p).is_default_video = true ∧
      (handle_media_end fs p).mstate = MState.playing) ∧
    (p.is_default_video = true →
      (handle_media_end fs p).video_path = p.video_path ∧
      (handle_media_end fs p).is_default_video = true ∧
      (handle_media_end fs p).mstate = MState.playing) := by
  constructor
  · intro hnd
    have h := cvmt_found fs { p with is_default_video := true }
      p.default_video hfs
    simp only at h
    simp only [handle_media_end, hnd, Bool.not_false, if_true]
    exact ⟨h.1, by rw [h.2.1]; simp, h.2.2.1⟩
  · intro hd
    simp only [handle_media_end, hd, Bool.not_true, Bool.false_eq_true,
      if_false]
    exact ⟨play_imt_video_path p, by rw [play_imt_is_default p]; exact hd,
      play_imt_mstate p⟩

/-- Witness for C1: on the sample state, a finished non-default video `"v"`
is replaced by the playing default video `"d"` with the flag set. -/
theorem handle_media_end_transition_witness :
    (handle_media_end sampleFs samplePlayer).video_path = "d" ∧
    (handle_media_end sampleFs samplePlayer).is_default_video = true ∧
    (handle_media_end sampleFs samplePlayer).mstate = MState.playing :=
  (handle_media_end_transition sampleFs samplePlayer (by decide)).1 (by decide)

/-- C2: `/play` with a `video_path` naming a nonexistent file and an
initialized player answers 404 with an error payload, emits no signal, and
leaves the player (hence `video_path`, `is_default_video` and the playing
media) unchanged. -/
theorem play_missing_file_404 (fs : String → Bool) (p : Player)
    (path : String) (h : fs path = false) :
    play_video fs (PlayBody.parsed (some path)) (some p)
      = ⟨404, Resp.err "Video file not found", some p, []⟩ := by
  unfold play_video
  simp [h]

/-- Witness for C2: requesting the nonexistent path `"missing"` on the
sample state yields exactly the 404 error response with no signal and the
player untouched. -/
theorem play_missing_file_404_witness :
    play_video sampleFs (PlayBody.parsed (some "missing")) (some samplePlayer)
      = ⟨404, Resp.err "Video file not found", some samplePlayer, []⟩ :=
  play_missing_file_404 sampleFs samplePlayer "missing" (by decide)

/-- Counterexample to C3: `/changeVideo` with a malformed body and an
uninitialized player answers 400, not 500. -/
theorem changeVideo_uninit_malformed_not_500 :
    (changeVideo [] "" CVBody.malformed none).status = 400 ∧
    ¬ (changeVideo [] "" CVBody.malformed none).status = 500 := by
  constructor <;> decide

/-- C3 (amended): with an uninitialized player, `/resume`, `/play`,
`/pause`, `/stop` and `/close` answer 500 with an error payload regardless
of the body; `/changeVideo` answers 500 with an error payload when the body
parses as a JSON object, but 400 (still an error payload) when the body is
malformed. -/
theorem uninitialized_statuses (fs : String → Bool) (pb : PlayBody)
    (videos : List String) (mainPath : String) (vid : Option Int) :
    (resume none).status = 500 ∧ (resume none).body.isError = true ∧
    (play_video fs pb none).status = 500 ∧
    (play_video fs pb none).body.isError = true ∧
    (pause_video none).status = 500 ∧
    (pause_video none).body.isError = true ∧
    (stop_video none).status = 500 ∧
    (stop_video none).body.isError = true ∧
    (close_player none).status = 500 ∧
    (close_player none).body.isError = true ∧
    (changeVideo videos mainPath (CVBody.valid vid) none).status = 500 ∧
    (changeVideo videos mainPath (CVBody.valid vid) none).body.isError
      = true ∧
    (changeVideo videos mainPath CVBody.malformed none).status = 400 ∧
    (changeVideo videos mainPath CVBody.malformed none).body.isError
      = true := by
  refine ⟨rfl, rfl, ?_, ?_, rfl, rfl, rfl, rfl, rfl, rfl, rfl, rfl, rfl, rfl⟩
    <;> cases pb <;> rfl

/-- Counterexample to C4: `/changeVideo` with an initialized player and a
malformed body answers 400, which is neither 200 nor 500. -/
theorem changeVideo_init_malformed_not_200_500 :
    (changeVideo ["a"] "m" CVBody.malformed (some samplePlayer)).status = 400
    ∧ ¬ ((changeVideo ["a"] "m" CVBody.malformed
          (some samplePlayer)).status = 200 ∨
        (changeVideo ["a"] "m" CVBody.malformed
          (some samplePlayer)).status = 500) := by
  constructor <;> decide

/-- C4 (amended): with the player initialized, `/changeVideo` on a body
`{"video-id": n}` with `n` a valid (Python, possibly negative) index into
the directory listing answers 200 and emits the change-video signal for
`MAIN_PATH/VIDEOS[n]`; an out-of-range index, or a missing or non-integer
`video-id`, answers 500; a malformed body answers 400, not 500. -/
theorem changeVideo_initialized_behavior (videos : List String)
    (mainPath : String) (p : Player) :
    (∀ (n : Int) (name : String), pyIndex videos n = some name →
      changeVideo videos mainPath (CVBody.valid (some n)) (some p)
        = ⟨200, Resp.ok "Change video request sent", some p,
            [Sig.changeVideoSig (mainPath ++ "/" ++ name)]⟩) ∧
    (∀ n : Int, pyIndex videos n = none →
      (changeVideo videos mainPath (CVBody.valid (some n))
        (some p)).status = 500) ∧
    (changeVideo videos mainPath (CVBody.valid none) (some p)).status = 500 ∧
    (changeVideo videos mainPath CVBody.malformed (some p)).status = 400 := by
  refine ⟨?_, ?_, rfl, rfl⟩
  · intro n name hidx
    simp [changeVideo, hidx, Player.change_video]
  · intro n hidx
    simp [changeVideo, hidx]

/-- Witness for C4 (amended): index `1` into the two-entry listing
`["a", "b"]` answers 200 and emits the signal for `m/b`; index `5` is out
of range and answers 500. -/
theorem changeVideo_initialized_behavior_witness :
    changeVideo ["a", "b"] "m" (CVBody.valid (some 1)) (some samplePlayer)
      = ⟨200, Resp.ok "Change video request sent", some samplePlayer,
          [Sig.changeVideoSig "m/b"]⟩ ∧
    (changeVideo ["a", "b"] "m" (CVBody.valid (some 5))
      (some samplePlayer)).status = 500 :=
  ⟨(changeVideo_initialized_behavior ["a", "b"] "m" samplePlayer).1
      1 "b" (by decide),
   (changeVideo_initialized_behavior ["a", "b"] "m" samplePlayer).2.1
      5 (by decide)⟩

/-- C5: `GET /test` answers 200 in every player state, initialized or not. -/
theorem test_always_200 (cp : Option Player) :
    (test_endpoint cp).status = 200 :=
  rfl

/-- C6: the pause slot toggles: a playing player becomes paused and a
non-playing one starts playing; and every `/pause` response status is 200,
400 or 500. -/
theorem pause_toggles_and_statuses :
    (∀ p : Player, (pause_in_main_thread p).1.mstate =
      (if p.mstate = MState.playing then MState.paused
       else MState.playing)) ∧
    (∀ cp : Option Player, (pause_video cp).status = 200 ∨
      (pause_video cp).status = 400 ∨ (pause_video cp).status = 500) := by
  constructor
  · intro p
    unfold pause_in_main_thread
    split <;> simp_all
  · intro cp
    cases cp with
    | none => right; right; rfl
    | some p => left; rfl

/-- C7: none of the any-thread methods changes any field of the player:
each returns the player unchanged together with exactly its one signal and
the value `True`. -/
theorem any_thread_methods_only_emit :
    (∀ (p : Player) (path : String),
      p.change_video path = (p, [Sig.changeVideoSig path], true)) ∧
    (∀ p : Player, p.play = (p, [Sig.playSig], true)) ∧
    (∀ p : Player, p.pause = (p, [Sig.pauseSig], true)) ∧
    (∀ p : Player, p.stop = (p, [Sig.stopSig], true)) ∧
    (∀ p : Player, p.close = (p, [Sig.closeSig], true)) :=
  ⟨fun _ _ => rfl, fun _ => rfl, fun _ => rfl, fun _ => rfl, fun _ => rfl⟩

/-- C8: the any-thread methods always return `True`, so with an initialized
player `/resume`, `/pause`, `/stop` and `/close` always answer 200 (with
the success payload and the single emitted signal), and `/play` and
`/changeVideo` never take their guarded "Failed to send" branches
(neither ever produces that error payload; their remaining 500 responses
come only from unhandled exceptions, not from these guards). -/
theorem send_failure_branches_unreachable :
    (∀ (p : Player) (path : String), (p.change_video path).2.2 = true) ∧
    (∀ p : Player, (p.play).2.2 = true ∧ (p.pause).2.2 = true ∧
      (p.stop).2.2 = true ∧ (p.close).2.2 = true) ∧
    (∀ p : Player,
      resume (some p) = ⟨200, Resp.ok "Resuming", some p, [Sig.playSig]⟩ ∧
      pause_video (some p)
        = ⟨200, Resp.ok "Pause request sent", some p, [Sig.pauseSig]⟩ ∧
      stop_video (some p)
        = ⟨200, Resp.ok "Stop request sent", some p, [Sig.stopSig]⟩ ∧
      close_player (some p)
        = ⟨200, Resp.ok "Close request sent", some p, [Sig.closeSig]⟩) ∧
    (∀ (fs : String → Bool) (body : PlayBody) (cp : Option Player),
      ¬ (play_video fs body cp).body
          = Resp.err "Failed to send play request") ∧
    (∀ (videos : List String) (mainPath : String) (body : CVBody)
        (p : Player),
      ¬ (changeVideo videos mainPath body (some p)).body
          = Resp.err "Failed to send change video request") := by
  refine ⟨fun _ _ => rfl, fun _ => ⟨rfl, rfl, rfl, rfl⟩,
    fun _ => ⟨rfl, rfl, rfl, rfl⟩, ?_, ?_⟩
  · intro fs body cp
    unfold play_video
    cases cp with
    | none => simp
    | some p =>
      cases body with
      | malformed => simp [Player.play]
      | degenerate => simp
      | parsed vp =>
        cases vp with
        | none => simp [Player.play]
        | some path =>
          dsimp only
          split
          · simp
          · simp [Player.change_video]
  · intro videos mainPath body p
    unfold changeVideo
    cases body with
    | malformed => simp
    | valid vid =>
      cases vid with
      | none => simp
      | some n =>
        dsimp only
        cases hidx : pyIndex videos n <;> simp [Player.change_video]

/-- C9: `change_video_in_main_thread` is atomic on error: a nonexistent
path returns `False` with the player bit-for-bit unchanged, while an
existing path returns `True`, sets `video_path`, recomputes
`is_default_video` against the default, and starts the new video playing. -/
theorem change_video_atomic (fs : String → Bool) (p : Player)
    (path : String) :
    (fs path = false → change_video_in_main_thread fs p path = (p, false)) ∧
    (fs path = true →
      (change_video_in_main_thread fs p path).2 = true ∧
      (change_video_in_main_thread fs p path).1.video_path = path ∧
      (change_video_in_main_thread fs p path).1.is_default_video
        = (path == p.default_video) ∧
      (change_video_in_main_thread fs p path).1.mstate
        = MState.playing) := by
  constructor
  · intro h
    unfold change_video_in_main_thread
    simp [h]
  · intro h
    have hc := cvmt_found fs p path h
    exact ⟨hc.2.2.2.2, hc.1, hc.2.1, hc.2.2.1⟩

/-- Witness for C9: on the sample state, changing to the nonexistent path
`"missing"` fails and leaves the player untouched, and changing to the
existing non-default path `"v"` succeeds and plays it. -/
theorem change_video_atomic_witness :
    change_video_in_main_thread sampleFs samplePlayer "missing"
      = (samplePlayer, false) ∧
    (change_video_in_main_thread sampleFs samplePlayer "v").2 = true ∧
    (change_video_in_main_thread sampleFs samplePlayer "v").1.video_path
      = "v" :=
  ⟨(change_video_atomic sampleFs samplePlayer "missing").1 (by decide),
   ((change_video_atomic sampleFs samplePlayer "v").2 (by decide)).1,
   ((change_video_atomic sampleFs samplePlayer "v").2 (by decide)).2.1⟩

/-- C10: the invariant `is_default_video = (video_path == default_video)`
is established by the constructor, preserved by
`change_video_in_main_thread` on every path, and — provided the default
video file exists — preserved by `handle_media_end`. -/
theorem default_flag_invariant (fs : String → Bool) :
    (∀ (vp : String) (p0 : Player),
      VideoPlayer.init fs vp = some p0 → InvDefault p0) ∧
    (∀ (p : Player) (path : String), InvDefault p →
      InvDefault (change_video_in_main_thread fs p path).1) ∧
    (∀ p : Player, InvDefault p → fs p.default_video = true →
      InvDefault (handle_media_end fs p)) := by
  refine ⟨?_, ?_, ?_⟩
  · intro vp p0 h
    unfold VideoPlayer.init at h
    split at h
    · cases h
      simp [InvDefault]
    · cases h
  · intro p path hp
    cases hfs : fs path with
    | false =>
      have h := (change_video_atomic fs p path).1 hfs
      rw [h]
      exact hp
    | true =>
      have h := cvmt_found fs p path hfs
      unfold InvDefault
      rw [h.1, h.2.1, h.2.2.2.1]
  · intro p hp hfs
    have h := handle_media_end_transition fs p hfs
    cases hd : p.is_default_video with
    | false =>
      have h1 := h.1 hd
      unfold InvDefault
      rw [h1.1, h1.2.1]
      have hdv : (handle_media_end fs p).default_video
          = p.default_video := by
        unfold handle_media_end
        rw [hd]
        dsimp only
        have hc := cvmt_found fs { p with is_default_video := true }
          p.default_video hfs
        exact hc.2.2.2.1
      rw [hdv]
      simp
    | true =>
      have h1 := h.2 hd
      unfold InvDefault
      rw [h1.1, h1.2.1]
      have hdv : (handle_media_end fs p).default_video
          = p.default_video := by
        unfold handle_media_end
        rw [hd]
        dsimp only
        exact play_imt_default_video p
      rw [hdv]
      rw [hp] at hd
      exact hd.symm

/-- Witness for C10: the constructed player on the existing default `"d"`
satisfies the invariant, and `handle_media_end` on the sample state (whose
flag is `false` and whose default exists) restores it. -/
theorem default_flag_invariant_witness :
    InvDefault (handle_media_end sampleFs samplePlayer) :=
  (default_flag_invariant sampleFs).2.2 samplePlayer
    (by simp only [InvDefault]; decide) (by decide)

end ConsatDemo
